import Mathlib

/-!
Shallow embedding of the worker-registration SSH gateway of
`cmd/tsa/server.go`: the keepalive dialer factory, the global-request
handler for `tcpip-forward`, the session handler's `register-worker` and
`forward-worker` branches, and the per-connection process bookkeeping that
the deferred cleanup acts on.

External nondeterminism (whether a dial succeeds, whether an SSH payload
unmarshals, which port the OS picks for a listener, whether the worker
JSON on the channel decodes) is supplied as fields of the event values;
everything the Go code itself computes is embedded as executable
functions.
-/

/-- The fields of the worker descriptor (`atc.Worker`) that the gateway
reads or rewrites: `GardenAddr`, `BaggageclaimURL` (the empty string means
the worker declared none, matching Go's zero value), plus identifying
fields carried through unchanged. -/
structure Worker where
  gardenAddr : String
  baggageclaimURL : String
  name : String
  platform : String
deriving DecidableEq, Repr

/-- The record pushed on the internal queue for each established reverse
tunnel (`forwardedTCPIP`, server.go:86-90): the client-declared bind
address used as correlation key, the OS-assigned bound port, and the
identity of the spawned dispatcher process (`ifrit.Process` handles are
abstracted as numeric identities, assigned by arrival position). -/
structure ForwardedTCPIP where
  bindAddr : String
  boundPort : Nat
  procId : Nat
deriving DecidableEq, Repr

/-- One SSH global request as seen by `handleForwardRequests`
(server.go:320-397), with the environment outcomes bundled in:
`payloadOk` is whether `ssh.Unmarshal` of the payload succeeds,
`listenOk` whether `net.Listen("tcp", "0.0.0.0:0")` succeeds, `osPort`
the OS-chosen listening port, and `portParseOk` whether splitting and
scanning the listener address (server.go:364-375) succeeds. -/
inductive SSHRequest where
  | other
  | tcpipForward (payloadOk : Bool) (bindIP : String) (bindPort : Nat)
      (listenOk : Bool) (osPort : Nat) (portParseOk : Bool)
deriving DecidableEq, Repr

/-- The externally visible effects of handling one global request:
the boolean reply, the `boundPort` marshalled in the reply payload
(`none` = empty payload), whether a listener was opened, the `forPort`
a dispatcher was spawned with (`none` = no dispatcher spawned), and the
record pushed onto the forwards queue (`none` = nothing pushed). -/
structure ReqEffect where
  reply : Bool
  replyPayload : Option Nat
  listenerOpened : Bool
  spawnedForPort : Option Nat
  pushed : Option ForwardedTCPIP
deriving DecidableEq, Repr

/-- Reply false, no side effects: the effect of a rejected request. -/
def rejectedEffect : ReqEffect := ⟨false, none, false, none, none⟩

/-- Counter update of `handleForwardRequests`: `forwardedThings++` runs
for every `tcpip-forward` request (server.go:333), before any check. -/
def forwardStepCount (forwardedThings : Nat) : SSHRequest → Nat
  | .other => forwardedThings
  | .tcpipForward .. => forwardedThings + 1

/-- Per-request effects of `handleForwardRequests` (server.go:328-395).
The guards mirror the source order: the `forwardedThings > 2` cap (the
counter has already been incremented, hence `forwardedThings + 1` here),
then payload unmarshalling, then the listen, then the listener-address
parse (which happens after the listener was opened), then the successful
path computing `forPort` and pushing the record. `procId` is the identity
given to the dispatcher process spawned at server.go:382. -/
def forwardStepEffect (procId forwardedThings : Nat) (r : SSHRequest) : ReqEffect :=
  match r with
  | .other => rejectedEffect
  | .tcpipForward payloadOk bindIP bindPort listenOk osPort portParseOk =>
    if 2 < forwardedThings + 1 then rejectedEffect
    else if payloadOk = false then rejectedEffect
    else if listenOk = false then rejectedEffect
    else if portParseOk = false then ⟨false, none, true, none, none⟩
    else
      ⟨true, some osPort, true,
       some (if bindPort = 0 then osPort else bindPort),
       some ⟨bindIP ++ ":" ++ toString bindPort, osPort, procId⟩⟩

/-- The request loop of `handleForwardRequests`, threading the
`forwardedThings` counter and numbering spawned dispatchers by request
position. -/
def runForwardRequests (procId forwardedThings : Nat) : List SSHRequest → List ReqEffect
  | [] => []
  | r :: rs =>
    forwardStepEffect procId forwardedThings r ::
      runForwardRequests (procId + 1) (forwardStepCount forwardedThings r) rs

/-- `handleForwardRequests` over a whole connection: the counter starts
at zero (server.go:326). -/
def handleForwardRequests (reqs : List SSHRequest) : List ReqEffect :=
  runForwardRequests 0 0 reqs

/-- Number of `tcpip-forward` requests in a request stream. -/
def tcpipCount : List SSHRequest → Nat
  | [] => 0
  | .other :: rs => tcpipCount rs
  | .tcpipForward .. :: rs => tcpipCount rs + 1

/-- The counter value after a stream of requests. -/
def forwardedAfter (st : Nat) : List SSHRequest → Nat
  | [] => st
  | r :: rs => forwardedAfter (forwardStepCount st r) rs

/-- The records pushed onto the `forwardedTCPIPs` queue (capacity 2,
server.go:95) over a connection, in arrival order. -/
def pushedRecords (reqs : List SSHRequest) : List ForwardedTCPIP :=
  (handleForwardRequests reqs).filterMap ReqEffect.pushed

/-- A subordinate process of a connection: a forward dispatcher
(`forwardTCPIP`, identified numerically) or a heartbeater carrying the
worker descriptor it registers. -/
inductive Proc where
  | dispatcher (procId : Nat)
  | heartbeater (worker : Worker)
deriving DecidableEq, Repr

/-- The dispatcher processes spawned while handling a connection's global
requests: one per pushed record (the spawn at server.go:382 and the push
at server.go:384 happen together on the accepted path). -/
def spawnedDispatchers (reqs : List SSHRequest) : List Proc :=
  (pushedRecords reqs).map (fun f => Proc.dispatcher f.procId)

/-- `continuouslyRegisterForwardedWorker` (server.go:283-305) with the
JSON decode outcome supplied as `decoded` (`none` = decode error, in
which case the Go function returns an error and no heartbeater starts).
On success it overwrites `GardenAddr` with `forwardHost:gardenPort` and,
only when `baggageclaimPort` is nonzero, `BaggageclaimURL` with
`http://forwardHost:baggageclaimPort`; the returned worker is the
descriptor the heartbeater will publish. -/
def continuouslyRegisterForwardedWorker (forwardHost : String) (decoded : Option Worker)
    (gardenPort baggageclaimPort : Nat) : Option Worker :=
  match decoded with
  | none => none
  | some worker =>
    let worker := { worker with gardenAddr := forwardHost ++ ":" ++ toString gardenPort }
    if baggageclaimPort ≠ 0 then
      some { worker with baggageclaimURL := "http://" ++ forwardHost ++ ":" ++ toString baggageclaimPort }
    else
      some worker

/-- Insertion into the Go map `forwards` keyed by bind address: a later
record with the same key overwrites the earlier one. -/
def mapInsert (key : String) (val : ForwardedTCPIP) :
    List (String × ForwardedTCPIP) → List (String × ForwardedTCPIP)
  | [] => [(key, val)]
  | (k, v) :: rest =>
    if k = key then (key, val) :: rest else (k, v) :: mapInsert key val rest

/-- Lookup in the `forwards` map. -/
def lookupFwd (key : String) : List (String × ForwardedTCPIP) → Option ForwardedTCPIP
  | [] => none
  | (k, v) :: rest => if k = key then some v else lookupFwd key rest

/-- The `forwards` map built by the collection loop (server.go:185-201):
the handler receives at most `expected` records from the queue (each
missing one only logs a timeout), keying each by its bind address. -/
def collectedForwards (expected : Nat) (queue : List ForwardedTCPIP) :
    List (String × ForwardedTCPIP) :=
  (queue.take expected).foldl (fun m f => mapInsert f.bindAddr f m) []

/-- Result of one session command: the subordinate processes recorded in
the handler's `processes` list (in append order — received dispatchers
first, then the heartbeater if one started), the diagnostics written to
the channel, and whether the handler returned early (as opposed to
blocking on `conn.Wait()` and continuing the request loop). The deferred
cleanup (server.go:102-119) signals and then waits on exactly the
`processes` list, on every exit path. -/
structure ConnResult where
  processes : List Proc
  channelOut : List String
  returned : Bool
deriving DecidableEq, Repr

/-- The `forward-worker` branch of `handleConn` (server.go:182-254).
`expected` is the value of `r.expectedForwards()`; `queue` is the content
of the `forwardedTCPIPs` queue. The received dispatchers are appended to
`processes` during collection (server.go:194). The `switch len(forwards)`
then either writes a diagnostic and returns (0 collected, or a failed
address lookup with 2 collected — note the source formats the garden
address in the baggageclaim diagnostic, server.go:235), or starts a
heartbeater via `continuouslyRegisterForwardedWorker` (Garden-only with
baggageclaim port 0 when 1 collected). A length of 3 or more matches no
switch case and falls through to `conn.Wait()`. -/
def handleConnForward (forwardHost gardenAddr baggageclaimAddr : String) (expected : Nat)
    (decoded : Option Worker) (queue : List ForwardedTCPIP) : ConnResult :=
  let procs := (queue.take expected).map (fun f => Proc.dispatcher f.procId)
  match collectedForwards expected queue with
  | [] => ⟨procs, ["requested forwarding but no forwards given\n"], true⟩
  | [(_, gardenForward)] =>
    match continuouslyRegisterForwardedWorker forwardHost decoded gardenForward.boundPort 0 with
    | none => ⟨procs, [], true⟩
    | some w => ⟨procs ++ [Proc.heartbeater w], [], false⟩
  | [c1, c2] =>
    match lookupFwd gardenAddr [c1, c2] with
    | none => ⟨procs, ["garden address " ++ gardenAddr ++ " not found in forwards\n"], true⟩
    | some gardenForward =>
      match lookupFwd baggageclaimAddr [c1, c2] with
      | none => ⟨procs, ["baggageclaim address " ++ gardenAddr ++ " not found in forwards\n"], true⟩
      | some baggageclaimForward =>
        match continuouslyRegisterForwardedWorker forwardHost decoded
            gardenForward.boundPort baggageclaimForward.boundPort with
        | none => ⟨procs, [], true⟩
        | some w => ⟨procs ++ [Proc.heartbeater w], [], false⟩
  | _ :: _ :: _ :: _ => ⟨procs, [], false⟩

/-- The parsed `exec` command (`parseRequest`'s result type): the two
variants of worker request. The parser itself is not among the sources;
only the fields the session handler reads are modelled. -/
inductive WorkerRequest where
  | registerWorker
  | forwardWorker (gardenAddr baggageclaimAddr : String)
deriving DecidableEq, Repr

/-- Modelled from the spec: `expectedForwards` of a parsed
`forward-worker` request (its implementation is not among the sources) is
the count of supplied addresses, defaulting to 1 when none are supplied;
the empty string stands for an absent address. -/
def expectedForwards (gardenAddr baggageclaimAddr : String) : Nat :=
  let n := (if gardenAddr = "" then 0 else 1) + (if baggageclaimAddr = "" then 0 else 1)
  if n = 0 then 1 else n

/-- Dispatch of one accepted `exec` command (server.go:165-262):
`register-worker` decodes the worker JSON and starts a heartbeater with
the descriptor unchanged (returning early on decode failure);
`forward-worker` runs the collection-and-registration branch. -/
def handleConnSession (forwardHost : String) (cmd : WorkerRequest) (decoded : Option Worker)
    (queue : List ForwardedTCPIP) : ConnResult :=
  match cmd with
  | .registerWorker =>
    match decoded with
    | none => ⟨[], [], true⟩
    | some w => ⟨[Proc.heartbeater w], [], false⟩
  | .forwardWorker g bc => handleConnForward forwardHost g bc (expectedForwards g bc) decoded queue

/-- One request on the accepted session channel, with environment
outcomes bundled in: a non-`exec` request, an `exec` whose payload fails
`ssh.Unmarshal`, an `exec` whose command string fails `parseRequest`
(carrying the parse error message), or a successfully parsed command. -/
inductive ChannelRequest where
  | nonExec
  | execBadPayload
  | execBadCommand (errMsg : String)
  | execCommand (cmd : WorkerRequest)
deriving DecidableEq, Repr

/-- The externally visible effects of handling one channel request: the
reply to the request (`none` when the source never replies) and the
diagnostics written to the channel. -/
structure ReqLoopEffect where
  reply : Option Bool
  wrote : List String
deriving DecidableEq, Repr

/-- The reply sent for an accepted `exec`: the `register-worker` branch
replies true (server.go:169); the `forward-worker` branch never replies
to the `exec` request. -/
def execReply : WorkerRequest → Option Bool
  | .registerWorker => some true
  | .forwardWorker _ _ => none

/-- Queue contents left after a command: the `forward-worker` branch
consumes up to `expectedForwards` records from the queue; the
`register-worker` branch receives none. -/
def queueAfter (cmd : WorkerRequest) (queue : List ForwardedTCPIP) : List ForwardedTCPIP :=
  match cmd with
  | .registerWorker => queue
  | .forwardWorker g bc => queue.drop (expectedForwards g bc)

/-- The channel-request loop of `handleConn` (server.go:139-263),
returning the accumulated `processes` list and the per-request effects.
A non-`exec` request is replied false and the loop continues
(server.go:144-148); an undecodable `exec` payload is replied false and
the handler returns (server.go:150-156); an unparseable command writes
`invalid command: <err>` to the channel, replies false, and the loop
continues (server.go:158-163); a parsed command runs its branch, and the
loop continues with the remaining queue unless that branch returned
early. -/
def runChannelRequests (forwardHost : String) (decoded : Option Worker) :
    List ForwardedTCPIP → List ChannelRequest → List Proc × List ReqLoopEffect
  | _, [] => ([], [])
  | queue, .nonExec :: rs =>
    ((runChannelRequests forwardHost decoded queue rs).1,
     ⟨some false, []⟩ :: (runChannelRequests forwardHost decoded queue rs).2)
  | _, .execBadPayload :: _ => ([], [⟨some false, []⟩])
  | queue, .execBadCommand e :: rs =>
    ((runChannelRequests forwardHost decoded queue rs).1,
     ⟨some false, ["invalid command: " ++ e]⟩ :: (runChannelRequests forwardHost decoded queue rs).2)
  | queue, .execCommand cmd :: rs =>
    if (handleConnSession forwardHost cmd decoded queue).returned then
      ((handleConnSession forwardHost cmd decoded queue).processes,
       [⟨execReply cmd, (handleConnSession forwardHost cmd decoded queue).channelOut⟩])
    else
      ((handleConnSession forwardHost cmd decoded queue).processes ++
         (runChannelRequests forwardHost decoded (queueAfter cmd queue) rs).1,
       ⟨execReply cmd, (handleConnSession forwardHost cmd decoded queue).channelOut⟩ ::
         (runChannelRequests forwardHost decoded (queueAfter cmd queue) rs).2)

/-- One whole connection (`handleConn`, server.go:92-265): the global
requests feed the forwards queue, and the session channel's requests are
processed against it. The first component is the `processes` list the
deferred cleanup signals and waits on. -/
def handleConn (forwardHost : String) (reqs : List SSHRequest) (chanReqs : List ChannelRequest)
    (decoded : Option Worker) : List Proc × List ReqLoopEffect :=
  runChannelRequests forwardHost decoded (pushedRecords reqs) chanReqs

/-- Whether a heartbeater occurs in a process list (a heartbeater is what
issues registration POSTs). -/
def hasHeartbeater : List Proc → Bool
  | [] => false
  | Proc.heartbeater _ :: _ => true
  | Proc.dispatcher _ :: ps => hasHeartbeater ps

/-- Environment outcomes for one dial of the keepalive dialer
(`keepaliveDialerFactory`, server.go:24-53): whether `net.DialTimeout`
succeeds, whether `tcpkeepalive.EnableKeepAlive` succeeds, and whether
each of the three keepalive parameter calls succeeds. -/
structure KeepaliveEnv where
  dialOk : Bool
  enableOk : Bool
  idleOk : Bool
  countOk : Bool
  intervalOk : Bool
deriving DecidableEq, Repr

/-- Outcome of one dial: the dial error is propagated; a nil-pointer
dereference aborts the goroutine; otherwise the connection is returned
together with the failure messages printed along the way. -/
inductive DialOutcome where
  | dialError
  | panicked
  | connReturned (logs : List String)
deriving DecidableEq, Repr

/-- The dialer produced by `keepaliveDialerFactory` (server.go:25-52).
When `EnableKeepAlive` fails it returns a nil `kac` and the error is
printed (server.go:33), but the very next statement calls
`kac.SetKeepAliveIdle` (server.go:36), a method that reads a field of its
nil receiver: the goroutine aborts with a nil-pointer dereference. When
`EnableKeepAlive` succeeds, each failing parameter call only prints a
message and the connection is returned. -/
def keepaliveDialerFactory (env : KeepaliveEnv) : DialOutcome :=
  if env.dialOk = false then .dialError
  else if env.enableOk = false then .panicked
  else
    .connReturned
      ((if env.idleOk then [] else ["failed to set keepalive idle threshold"]) ++
       (if env.countOk then [] else ["failed to set keepalive count"]) ++
       (if env.intervalOk then [] else ["failed to set keepalive interval"]))

/-! ## Helper lemmas -/

theorem runForwardRequests_length (i st : Nat) (l : List SSHRequest) :
    (runForwardRequests i st l).length = l.length := by
  induction l generalizing i st with
  | nil => rfl
  | cons r rs ih => simp [runForwardRequests, ih]

theorem forwardedAfter_eq (st : Nat) (l : List SSHRequest) :
    forwardedAfter st l = st + tcpipCount l := by
  induction l generalizing st with
  | nil => simp [forwardedAfter, tcpipCount]
  | cons r rs ih =>
    cases r with
    | other => simp [forwardedAfter, forwardStepCount, tcpipCount, ih]
    | tcpipForward a b c d e f =>
      simp only [forwardedAfter, forwardStepCount, tcpipCount, ih]
      omega

theorem runForwardRequests_append (i st : Nat) (l l' : List SSHRequest) :
    runForwardRequests i st (l ++ l') =
      runForwardRequests i st l ++
        runForwardRequests (i + l.length) (forwardedAfter st l) l' := by
  induction l generalizing i st with
  | nil => simp [runForwardRequests, forwardedAfter]
  | cons r rs ih =>
    simp only [List.cons_append, runForwardRequests, forwardedAfter, List.length_cons,
      List.append_eq]
    rw [ih]
    have h : i + (rs.length + 1) = i + 1 + rs.length := by omega
    rw [h]

theorem countP_reply_le (i st : Nat) (l : List SSHRequest) :
    (runForwardRequests i st l).countP (fun e => e.reply) ≤ tcpipCount l := by
  induction l generalizing i st with
  | nil => simp [runForwardRequests, tcpipCount]
  | cons r rs ih =>
    cases r with
    | other =>
      simp only [runForwardRequests, tcpipCount, List.countP_cons, forwardStepEffect,
        rejectedEffect]
      simpa using ih (i + 1) (forwardStepCount st .other)
    | tcpipForward a b c d e f =>
      simp only [runForwardRequests, tcpipCount, List.countP_cons]
      have h := ih (i + 1) (forwardStepCount st (.tcpipForward a b c d e f))
      split <;> omega

theorem forwardStepEffect_reject (i st : Nat) (a : Bool) (b : String) (c : Nat) (d : Bool)
    (e : Nat) (f : Bool) (h : 2 ≤ st) :
    forwardStepEffect i st (.tcpipForward a b c d e f) = rejectedEffect := by
  simp [forwardStepEffect, show 2 < st + 1 by omega]

/-- Core of the forward cap: once the counter is at least 2 after a
prefix, any further tcpip-forward request is replied false with no side
effect. -/
theorem forwardCapCore (pre post : List SSHRequest) (a : Bool) (b : String) (c : Nat)
    (d : Bool) (e : Nat) (f : Bool) (h : 2 ≤ tcpipCount pre) :
    (handleForwardRequests (pre ++ SSHRequest.tcpipForward a b c d e f :: post))[pre.length]? =
      some rejectedEffect := by
  unfold handleForwardRequests
  rw [runForwardRequests_append]
  rw [List.getElem?_append_right (by rw [runForwardRequests_length])]
  rw [runForwardRequests_length, Nat.sub_self]
  simp only [runForwardRequests, List.getElem?_cons_zero]
  rw [forwardStepEffect_reject]
  rw [forwardedAfter_eq]
  omega

/-! ## Claim theorems: global-request handler -/

/-- Claim C3: on every connection, after two tcpip-forward global
requests have been accepted, every subsequent tcpip-forward request is
replied false and causes no side effect — no listener opened, no
dispatcher spawned, nothing pushed onto the forwards queue. -/
theorem forward_cap_after_two_accepted (pre post : List SSHRequest) (payloadOk : Bool)
    (bindIP : String) (bindPort : Nat) (listenOk : Bool) (osPort : Nat) (portParseOk : Bool)
    (hacc : 2 ≤ (handleForwardRequests pre).countP (fun e => e.reply)) :
    (handleForwardRequests
        (pre ++ SSHRequest.tcpipForward payloadOk bindIP bindPort listenOk osPort portParseOk
          :: post))[pre.length]? = some rejectedEffect := by
  have h2 : 2 ≤ tcpipCount pre := le_trans hacc (countP_reply_le 0 0 pre)
  exact forwardCapCore pre post payloadOk bindIP bindPort listenOk osPort portParseOk h2

/-- Witness for C3: two accepted forwards, then a third well-formed
tcpip-forward request, which is rejected with no side effect. -/
theorem forward_cap_after_two_accepted_witness :
    (handleForwardRequests
        ([SSHRequest.tcpipForward true "0.0.0.0" 0 true 41000 true,
          SSHRequest.tcpipForward true "0.0.0.0" 0 true 42000 true] ++
          SSHRequest.tcpipForward true "0.0.0.0" 7777 true 43000 true :: []))[2]? =
      some rejectedEffect :=
  forward_cap_after_two_accepted
    [SSHRequest.tcpipForward true "0.0.0.0" 0 true 41000 true,
     SSHRequest.tcpipForward true "0.0.0.0" 0 true 42000 true]
    [] true "0.0.0.0" 7777 true 43000 true (by decide)

/-- Claim C9: the per-connection counter counts every tcpip-forward
request, accepted or not, so after any two tcpip-forward requests every
later tcpip-forward request on the connection is replied false with no
side effect. -/
theorem forward_counter_counts_every_request (pre post : List SSHRequest) (payloadOk : Bool)
    (bindIP : String) (bindPort : Nat) (listenOk : Bool) (osPort : Nat) (portParseOk : Bool)
    (hcount : 2 ≤ tcpipCount pre) :
    (handleForwardRequests
        (pre ++ SSHRequest.tcpipForward payloadOk bindIP bindPort listenOk osPort portParseOk
          :: post))[pre.length]? = some rejectedEffect :=
  forwardCapCore pre post payloadOk bindIP bindPort listenOk osPort portParseOk hcount

/-- Witness for C9: a malformed tcpip-forward payload and a failed
listen — neither opened a listener — still count, and a third,
well-formed request is rejected. -/
theorem forward_counter_counts_every_request_witness :
    (handleForwardRequests
        ([SSHRequest.tcpipForward false "" 0 true 0 true,
          SSHRequest.tcpipForward true "0.0.0.0" 7777 false 0 true] ++
          SSHRequest.tcpipForward true "0.0.0.0" 7777 true 43000 true :: []))[2]? =
      some rejectedEffect :=
  forward_counter_counts_every_request
    [SSHRequest.tcpipForward false "" 0 true 0 true,
     SSHRequest.tcpipForward true "0.0.0.0" 7777 false 0 true]
    [] true "0.0.0.0" 7777 true 43000 true (by decide)

/-- Claim C5 counterexample: a tcpip-forward request with nonzero
requested bind port 7777 is accepted with an OS-chosen listening port
54321; the reply payload reports the OS-chosen port 54321, not the
client's requested port — only the dispatcher's forward port is 7777. -/
theorem reply_reports_os_port_counterexample :
    (handleForwardRequests [SSHRequest.tcpipForward true "0.0.0.0" 7777 true 54321 true])[0]? =
      some ⟨true, some 54321, true, some 7777, some ⟨"0.0.0.0:7777", 54321, 0⟩⟩ ∧
    (54321 : Nat) ≠ 7777 := by
  exact ⟨rfl, by decide⟩

/-- Claim C5 (amended): for every accepted tcpip-forward request, the
reply payload always carries the OS-chosen listening port, while the
forward port used when opening forwarded-tcpip channels is the OS-chosen
port when the requested bind port is zero and the client's requested
port otherwise. -/
theorem forward_port_selection (procId forwardedThings : Nat) (bindIP : String)
    (bindPort osPort : Nat) (h : forwardedThings + 1 ≤ 2) :
    forwardStepEffect procId forwardedThings
        (.tcpipForward true bindIP bindPort true osPort true) =
      ⟨true, some osPort, true, some (if bindPort = 0 then osPort else bindPort),
       some ⟨bindIP ++ ":" ++ toString bindPort, osPort, procId⟩⟩ := by
  simp [forwardStepEffect, show ¬2 < forwardedThings + 1 by omega]

/-- Witness for the amended C5: first request, requested port 7777,
OS-chosen port 54321. -/
theorem forward_port_selection_witness :
    forwardStepEffect 0 0 (.tcpipForward true "0.0.0.0" 7777 true 54321 true) =
      ⟨true, some 54321, true, some 7777, some ⟨"0.0.0.0:7777", 54321, 0⟩⟩ :=
  forward_port_selection 0 0 "0.0.0.0" 7777 54321 (by decide)

/-- Claim C6: evaluating the dialer where the TCP dial succeeds but
`EnableKeepAlive` fails shows the goroutine aborts with a nil-pointer
dereference instead of logging and returning the connection. -/
theorem keepalive_dialer_panics_on_enable_failure :
    keepaliveDialerFactory ⟨true, false, true, true, true⟩ = DialOutcome.panicked := rfl

/-! ## Claim theorems: session handler -/

theorem hasHeartbeater_dispatchers (n : Nat) (l : List ForwardedTCPIP) :
    hasHeartbeater (List.take n (l.map fun f => Proc.dispatcher f.procId)) = false := by
  induction l generalizing n with
  | nil => simp [hasHeartbeater]
  | cons f fs ih =>
    cases n with
    | zero => simp [hasHeartbeater]
    | succ m => simpa [hasHeartbeater] using ih m

/-- Claim C1 counterexample: in a single-forward session, a worker that
declared its own BaggageclaimURL has that very address published — the
heartbeater's descriptor keeps the worker-declared
`http://10.0.0.1:7788`, which is not an address of the gateway
`gateway.example`. -/
theorem forwarded_descriptor_keeps_own_baggageclaim :
    handleConnForward "gateway.example" "" "" 1
        (some ⟨"10.0.0.1:7777", "http://10.0.0.1:7788", "w2", "linux"⟩)
        [⟨"0.0.0.0:0", 41000, 0⟩] =
      ⟨[Proc.dispatcher 0,
        Proc.heartbeater ⟨"gateway.example:41000", "http://10.0.0.1:7788", "w2", "linux"⟩],
       [], false⟩ ∧
    ("http://10.0.0.1:7788" : String) ≠ "http://gateway.example:41000" :=
  ⟨rfl, by decide⟩

/-- Claim C1 (amended): the registration rewrite always sets `GardenAddr`
to `forwardHost:gardenPort`, and sets `BaggageclaimURL` to
`http://forwardHost:baggageclaimPort` exactly when the baggageclaim port
is nonzero — with port 0 (the single-forward case) the worker-declared
`BaggageclaimURL` is published unchanged. -/
theorem forwarded_descriptor_rewrite (forwardHost : String) (w : Worker)
    (gardenPort baggageclaimPort : Nat) :
    continuouslyRegisterForwardedWorker forwardHost (some w) gardenPort baggageclaimPort =
      some ⟨forwardHost ++ ":" ++ toString gardenPort,
            if baggageclaimPort = 0 then w.baggageclaimURL
            else "http://" ++ forwardHost ++ ":" ++ toString baggageclaimPort,
            w.name, w.platform⟩ := by
  by_cases h : baggageclaimPort = 0 <;>
    simp [continuouslyRegisterForwardedWorker, h]

/-- Claim C4: for every successful forwarded-worker registration, the
published descriptor has `GardenAddr = forwardHost:gardenBoundPort`;
when two forwards were established (and the baggageclaim bound port is a
real OS port, hence nonzero), `BaggageclaimURL =
http://forwardHost:baggageclaimBoundPort`. Both branches of the session
handler are covered. -/
theorem registration_addresses (forwardHost g bc : String) (expected : Nat) (w : Worker)
    (queue : List ForwardedTCPIP) :
    (∀ k f, collectedForwards expected queue = [(k, f)] →
      handleConnForward forwardHost g bc expected (some w) queue =
        ⟨(queue.take expected).map (fun x => Proc.dispatcher x.procId) ++
          [Proc.heartbeater
            ⟨forwardHost ++ ":" ++ toString f.boundPort, w.baggageclaimURL, w.name, w.platform⟩],
         [], false⟩) ∧
    (∀ c1 c2 gf bf, collectedForwards expected queue = [c1, c2] →
      lookupFwd g [c1, c2] = some gf → lookupFwd bc [c1, c2] = some bf →
      bf.boundPort ≠ 0 →
      handleConnForward forwardHost g bc expected (some w) queue =
        ⟨(queue.take expected).map (fun x => Proc.dispatcher x.procId) ++
          [Proc.heartbeater
            ⟨forwardHost ++ ":" ++ toString gf.boundPort,
             "http://" ++ forwardHost ++ ":" ++ toString bf.boundPort, w.name, w.platform⟩],
         [], false⟩) := by
  constructor
  · intro k f hcol
    simp only [handleConnForward, hcol]
    simp [continuouslyRegisterForwardedWorker]
  · intro c1 c2 gf bf hcol hg hb hbp
    simp only [handleConnForward, hcol, hg, hb]
    simp [continuouslyRegisterForwardedWorker, hbp]

/-- Witness for C4: a two-forward session whose declared addresses match
the two collected forwards; the descriptor carries both rewritten
addresses. -/
theorem registration_addresses_witness :
    handleConnForward "gateway.example" "0.0.0.0:7777" "0.0.0.0:7788" 2
        (some ⟨"127.0.0.1:7777", "", "w3", "linux"⟩)
        [⟨"0.0.0.0:7777", 41000, 0⟩, ⟨"0.0.0.0:7788", 42000, 1⟩] =
      ⟨[Proc.dispatcher 0, Proc.dispatcher 1,
        Proc.heartbeater
          ⟨"gateway.example:41000", "http://gateway.example:42000", "w3", "linux"⟩],
       [], false⟩ :=
  (registration_addresses "gateway.example" "0.0.0.0:7777" "0.0.0.0:7788" 2
      ⟨"127.0.0.1:7777", "", "w3", "linux"⟩
      [⟨"0.0.0.0:7777", 41000, 0⟩, ⟨"0.0.0.0:7788", 42000, 1⟩]).2
    ("0.0.0.0:7777", ⟨"0.0.0.0:7777", 41000, 0⟩)
    ("0.0.0.0:7788", ⟨"0.0.0.0:7788", 42000, 1⟩)
    ⟨"0.0.0.0:7777", 41000, 0⟩ ⟨"0.0.0.0:7788", 42000, 1⟩
    (by decide) (by decide) (by decide) (by decide)

/-- Claim C7: if zero forwards were collected, or two were collected but
the declared garden or baggageclaim address is not a key of the map, the
forward-worker branch writes a diagnostic, returns early (so the
deferred cleanup runs), and never starts a heartbeater — no registration
POST is issued for the session. -/
theorem forward_failure_no_heartbeat (forwardHost g bc : String) (expected : Nat)
    (decoded : Option Worker) (queue : List ForwardedTCPIP)
    (h : collectedForwards expected queue = [] ∨
      ∃ c1 c2, collectedForwards expected queue = [c1, c2] ∧
        (lookupFwd g [c1, c2] = none ∨ lookupFwd bc [c1, c2] = none)) :
    (handleConnForward forwardHost g bc expected decoded queue).channelOut ≠ [] ∧
    (handleConnForward forwardHost g bc expected decoded queue).returned = true ∧
    hasHeartbeater (handleConnForward forwardHost g bc expected decoded queue).processes =
      false := by
  rcases h with hcol | ⟨c1, c2, hcol, hlook⟩
  · simp only [handleConnForward, hcol]
    exact ⟨by simp, by simp, by simp [hasHeartbeater_dispatchers]⟩
  · rcases hlook with hg | hb
    · simp only [handleConnForward, hcol, hg]
      exact ⟨by simp, by simp, by simp [hasHeartbeater_dispatchers]⟩
    · cases hgv : lookupFwd g [c1, c2] with
      | none =>
        simp only [handleConnForward, hcol, hgv]
        exact ⟨by simp, by simp, by simp [hasHeartbeater_dispatchers]⟩
      | some gf =>
        simp only [handleConnForward, hcol, hgv, hb]
        exact ⟨by simp, by simp, by simp [hasHeartbeater_dispatchers]⟩

/-- Witness for C7: an empty queue collects nothing; the handler writes
the no-forwards diagnostic, returns, and starts no heartbeater. -/
theorem forward_failure_no_heartbeat_witness :
    (handleConnForward "gateway.example" "127.0.0.1:7777" "" 1 none []).channelOut ≠ [] ∧
    (handleConnForward "gateway.example" "127.0.0.1:7777" "" 1 none []).returned = true ∧
    hasHeartbeater
      (handleConnForward "gateway.example" "127.0.0.1:7777" "" 1 none []).processes = false :=
  forward_failure_no_heartbeat "gateway.example" "127.0.0.1:7777" "" 1 none []
    (Or.inl rfl)

/-- Claim C10: when both collected forwards carry the same declared bind
address, the second overwrites the first, the map has one entry, and the
single-forward branch registers Garden-only with the surviving forward's
bound port, `BaggageclaimURL` untouched. -/
theorem duplicate_bind_addr_garden_only (forwardHost g bc : String) (w : Worker)
    (f1 f2 : ForwardedTCPIP) (h : f1.bindAddr = f2.bindAddr) :
    collectedForwards 2 [f1, f2] = [(f2.bindAddr, f2)] ∧
    handleConnForward forwardHost g bc 2 (some w) [f1, f2] =
      ⟨[Proc.dispatcher f1.procId, Proc.dispatcher f2.procId,
        Proc.heartbeater
          ⟨forwardHost ++ ":" ++ toString f2.boundPort, w.baggageclaimURL, w.name, w.platform⟩],
       [], false⟩ := by
  have hcol : collectedForwards 2 [f1, f2] = [(f2.bindAddr, f2)] := by
    simp [collectedForwards, mapInsert, h]
  refine ⟨hcol, ?_⟩
  simp only [handleConnForward, hcol]
  simp [continuouslyRegisterForwardedWorker]

/-- Witness for C10: two forwards declaring the bind address
`0.0.0.0:7777`; the worker is registered Garden-only at the second
forward's bound port 42000. -/
theorem duplicate_bind_addr_garden_only_witness :
    collectedForwards 2 [⟨"0.0.0.0:7777", 41000, 0⟩, ⟨"0.0.0.0:7777", 42000, 1⟩] =
      [("0.0.0.0:7777", ⟨"0.0.0.0:7777", 42000, 1⟩)] ∧
    handleConnForward "gateway.example" "0.0.0.0:7777" "0.0.0.0:7788" 2
        (some ⟨"127.0.0.1:7777", "http://127.0.0.1:7788", "w5", "linux"⟩)
        [⟨"0.0.0.0:7777", 41000, 0⟩, ⟨"0.0.0.0:7777", 42000, 1⟩] =
      ⟨[Proc.dispatcher 0, Proc.dispatcher 1,
        Proc.heartbeater
          ⟨"gateway.example:42000", "http://127.0.0.1:7788", "w5", "linux"⟩],
       [], false⟩ :=
  duplicate_bind_addr_garden_only "gateway.example" "0.0.0.0:7777" "0.0.0.0:7788"
    ⟨"127.0.0.1:7777", "http://127.0.0.1:7788", "w5", "linux"⟩
    ⟨"0.0.0.0:7777", 41000, 0⟩ ⟨"0.0.0.0:7777", 42000, 1⟩ rfl

/-- Claim C2 counterexample: a tcpip-forward accepted before an exec of
register-worker spawns dispatcher 0 and pushes its record, but the
register-worker branch never receives from the queue, so the cleanup
list holds only the heartbeater — dispatcher 0 is neither signalled nor
waited on before the handler returns. -/
theorem unreceived_dispatcher_not_joined :
    spawnedDispatchers [SSHRequest.tcpipForward true "0.0.0.0" 7777 true 41000 true] =
      [Proc.dispatcher 0] ∧
    (handleConn "gateway.example"
        [SSHRequest.tcpipForward true "0.0.0.0" 7777 true 41000 true]
        [ChannelRequest.execCommand WorkerRequest.registerWorker]
        (some ⟨"127.0.0.1:7777", "", "w1", "linux"⟩)).1 =
      [Proc.heartbeater ⟨"127.0.0.1:7777", "", "w1", "linux"⟩] ∧
    Proc.dispatcher 0 ∉
      [Proc.heartbeater (⟨"127.0.0.1:7777", "", "w1", "linux"⟩ : Worker)] :=
  ⟨rfl, rfl, by decide⟩

/-- Claim C2 (amended): every dispatcher whose forwardedTCPIP record the
session handler received from the queue is recorded in the connection's
process list, which the deferred cleanup signals and waits on before the
handler returns; dispatchers whose records were pushed but never
received are not in that list. -/
theorem received_dispatchers_joined (forwardHost g bc : String) (expected : Nat)
    (decoded : Option Worker) (queue : List ForwardedTCPIP) (f : ForwardedTCPIP)
    (hf : f ∈ queue.take expected) :
    Proc.dispatcher f.procId ∈
      (handleConnForward forwardHost g bc expected decoded queue).processes := by
  have hmem : Proc.dispatcher f.procId ∈
      (queue.take expected).map (fun x => Proc.dispatcher x.procId) :=
    List.mem_map_of_mem _ hf
  simp only [handleConnForward]
  split
  · exact hmem
  · split
    · exact hmem
    · exact List.mem_append_left _ hmem
  · split
    · exact hmem
    · split
      · exact hmem
      · split
        · exact hmem
        · exact List.mem_append_left _ hmem
  · exact hmem

/-- Witness for the amended C2: the one received dispatcher (id 5) is in
the process list the cleanup acts on. -/
theorem received_dispatchers_joined_witness :
    Proc.dispatcher 5 ∈
      (handleConnForward "gateway.example" "" "" 1 none [⟨"0.0.0.0:0", 41000, 5⟩]).processes :=
  received_dispatchers_joined "gateway.example" "" "" 1 none
    [⟨"0.0.0.0:0", 41000, 5⟩] ⟨"0.0.0.0:0", 41000, 5⟩ (by decide)

/-- Claim C8 counterexample: after an exec whose command fails to parse,
the handler writes the diagnostic and replies false but keeps serving
the session — a subsequent register-worker exec on the same channel is
still accepted and starts a heartbeater, so the session was not
terminated. -/
theorem invalid_command_session_survives :
    handleConn "gateway.example" []
        [ChannelRequest.execBadCommand "flag provided but not defined: -bogus",
         ChannelRequest.execCommand WorkerRequest.registerWorker]
        (some ⟨"127.0.0.1:7777", "", "w4", "linux"⟩) =
      ([Proc.heartbeater ⟨"127.0.0.1:7777", "", "w4", "linux"⟩],
       [⟨some false, ["invalid command: flag provided but not defined: -bogus"]⟩,
        ⟨some true, []⟩]) := rfl

/-- Claim C8 (amended): when the command string of an exec request fails
to parse, the gateway writes `invalid command: <err>` to the channel and
replies false, and the request loop continues with the remaining
requests of the same session; other connections are unaffected. -/
theorem invalid_command_diag_and_continue (forwardHost : String) (decoded : Option Worker)
    (queue : List ForwardedTCPIP) (errMsg : String) (rs : List ChannelRequest) :
    runChannelRequests forwardHost decoded queue (ChannelRequest.execBadCommand errMsg :: rs) =
      ((runChannelRequests forwardHost decoded queue rs).1,
       ⟨some false, ["invalid command: " ++ errMsg]⟩ ::
         (runChannelRequests forwardHost decoded queue rs).2) := rfl
